import Mathlib

/-!
Shallow embedding of the validated-retry request pattern of
`src/reverie/backend_server/persona/prompt_template/gpt_structure.py`.

Modelling conventions:

* The remote OpenAI client is an oracle.  For the retry loops, the per-attempt
  outcome of the underlying single-call primitive is given as a function
  `responses : Nat → Except Unit String`, where `Except.error ()` means the
  inner call raised and `Except.ok s` means it returned the text `s`.
* A Python function that may raise is modelled with `Except Unit`; a raised
  exception is `Except.error ()`.
* Python's dynamic return values are modelled with `PyVal`: the retry
  requesters can return either a string-like cleanup result or the Python
  literal `False` (which `ChatGPT_safe_generate_response` and
  `GPT4_safe_generate_response` return on exhaustion).
* Each requester returns the pair (outcome, number of transport invocations),
  where a transport invocation is one call of `GPT_request` /
  `ChatGPT_request` / `GPT4_request` made by the loop body.
* Python's stdlib `json.loads` composed with the `["output"]` lookup is a
  library call, not code of this repository; the requesters take it as a
  parameter `jsonOutput : String → Option String` (`none` = the decode or the
  key lookup raised).  A concrete executable instance `jsonLoadsOutput`
  implementing the flat-object/string-value subset of JSON is provided for
  concrete runs.
-/

/-- Dynamic Python value returned by the requesters: a cleanup result
(modelled as a string payload) or a Python bool such as the literal `False`
returned by the two JSON variants on exhaustion. -/
inductive PyVal where
  | str (s : String)
  | bool (b : Bool)
deriving DecidableEq

/-- Whitespace characters removed by Python's `str.strip()` (the ASCII subset
actually relevant to this code). -/
def isPyWs (c : Char) : Bool :=
  c == ' ' || c == '\t' || c == '\n' || c == '\r' || c == '\x0b' || c == '\x0c'

/-- Model of Python `s.strip()`: remove leading and trailing whitespace. -/
def pyStrip (s : String) : String :=
  String.mk (((s.toList.dropWhile isPyWs).reverse.dropWhile isPyWs).reverse)

/-- One past the index of the last `\x7d` character of the list, or `0` when
there is none: the Python expression `s.rfind('\x7d') + 1` (with `rfind`
returning `-1` when absent). -/
def lastBraceEnd : List Char → Nat
  | [] => 0
  | c :: cs =>
    let r := lastBraceEnd cs
    if r > 0 then r + 1 else if c = '\x7d' then 1 else 0

/-- Model of `curr_gpt_response[:curr_gpt_response.rfind('\x7d') + 1]`:
the text up to and including its last closing brace, empty when there is no
closing brace. -/
def sliceToLastBrace (s : String) : String :=
  String.mk (s.toList.take (lastBraceEnd s.toList))

/-- Truthiness test `content and content.strip()` on a message content that
may be `None`. -/
def contentUsable : Option String → Bool
  | some s => !(pyStrip s == "")
  | none => false

/-- The string carried by a message content, `""` when it is `None`. -/
def contentText : Option String → String
  | some s => s
  | none => ""

/-- The completion prompt `_gpt5_nano_complete` builds around the caller's
prompt and sends to both the primary and the fallback model. -/
def completionPrompt (prompt : String) : String :=
  "Complete the following text exactly where it left off. \n\nIMPORTANT RULES:\n1. Do NOT repeat the person's name if it's already in the prompt\n2. Do NOT include schedule entry IDs like [(ID:...)]\n3. Do NOT add explanations or commentary\n4. Provide only the activity description that continues the sentence\n\nText to complete:\n" ++ prompt

/-- Fallback tier of `_gpt5_nano_complete` (source lines 241-257): one call to
the secondary model; a raise is caught by the outer handler and yields the
in-band marker `"ChatGPT ERROR"`, blank content yields `""`.  The `Nat` is
the number of secondary-model calls made (always 1 here). -/
def gpt5Fallback (secondary : Except Unit (Option String)) : String × Nat :=
  match secondary with
  | .error _ => ("ChatGPT ERROR", 1)
  | .ok c => if contentUsable c then (pyStrip (contentText c), 1) else ("", 1)

/-- Model of `_gpt5_nano_complete` (source lines 215-257).  `primary` and
`secondary` are the two model endpoints, each a function of the prompt text
actually sent, returning the message content (`none` = null content) or
raising.  Result: the returned text paired with the number of
secondary-model calls made. -/
def gpt5_nano_complete (primary secondary : String → Except Unit (Option String))
    (prompt : String) : String × Nat :=
  let cp := completionPrompt prompt
  match primary cp with
  | .ok c =>
    if contentUsable c then (pyStrip (contentText c), 0)
    else gpt5Fallback (secondary cp)
  | .error _ => gpt5Fallback (secondary cp)

/-- Model of `GPT_request` (source lines 187-209): forward the inner call's
text, turning any raise into the in-band string `"TOKEN LIMIT EXCEEDED"`. -/
def GPT_request (inner : Except Unit String) : String :=
  match inner with
  | .ok s => s
  | .error _ => "TOKEN LIMIT EXCEEDED"

/-- Model of `ChatGPT_request` (source lines 53-71): forward the inner call's
text, turning any raise into the in-band string `"ChatGPT ERROR"`. -/
def ChatGPT_request (inner : Except Unit String) : String :=
  match inner with
  | .ok s => s
  | .error _ => "ChatGPT ERROR"

/-- Model of `GPT4_request` (source lines 31-50): same error handling as
`ChatGPT_request`. -/
def GPT4_request (inner : Except Unit String) : String :=
  match inner with
  | .ok s => s
  | .error _ => "ChatGPT ERROR"

/-- One loop-body attempt of `ChatGPT_safe_generate_response` /
`GPT4_safe_generate_response` (source lines 93-108 and 133-152), whole body
under `try`: strip the response, slice to the last closing brace, decode the
`"output"` field, validate, clean up.  `none` = the attempt failed (any raise
was caught, or the validator rejected); `some v` = the attempt returned `v`. -/
def jsonAttempt (request : Except Unit String → String)
    (jsonOutput : String → Option String)
    (inner : Except Unit String)
    (func_validate : String → String → Except Unit Bool)
    (func_clean_up : String → String → Except Unit PyVal)
    (P : String) : Option PyVal :=
  match jsonOutput (sliceToLastBrace (pyStrip (request inner))) with
  | none => none
  | some cand =>
    match func_validate cand P with
    | .error _ => none
    | .ok false => none
    | .ok true =>
      match func_clean_up cand P with
      | .error _ => none
      | .ok v => some v

/-- One loop-body attempt of `ChatGPT_safe_generate_response_OLD` (source
lines 168-178), whole body under `try`: strip the response, validate, clean
up; no JSON extraction and no blank/sentinel filtering. -/
def oldAttempt (inner : Except Unit String)
    (func_validate : String → String → Except Unit Bool)
    (func_clean_up : String → String → Except Unit PyVal)
    (P : String) : Option PyVal :=
  let s := pyStrip (ChatGPT_request inner)
  match func_validate s P with
  | .error _ => none
  | .ok false => none
  | .ok true =>
    match func_clean_up s P with
    | .error _ => none
    | .ok v => some v

/-- The `for i in range(repeat)` loop shared by the three try/except
requesters: run `attempt` on successive transport outcomes, return the first
success, or `exhaust` after the budget is spent.  The `Nat` counts transport
invocations. -/
def retryLoop (attempt : Except Unit String → Option PyVal) (exhaust : PyVal) :
    (Nat → Except Unit String) → Nat → Except Unit PyVal × Nat
  | _, 0 => (Except.ok exhaust, 0)
  | responses, n + 1 =>
    match attempt (responses 0) with
    | some v => (Except.ok v, 1)
    | none =>
      let r := retryLoop attempt exhaust (fun j => responses (j + 1)) n
      (r.1, r.2 + 1)

/-- The loop of `safe_generate_response` (source lines 298-314).  There is no
`try` around the body: the two in-band sentinels are skipped, but a raise in
`func_validate` or `func_clean_up` propagates (`Except.error`). -/
def safeLoop (func_validate : String → String → Except Unit Bool)
    (func_clean_up : String → String → Except Unit PyVal)
    (P : String) (fail_safe : PyVal) :
    (Nat → Except Unit String) → Nat → Except Unit PyVal × Nat
  | _, 0 => (Except.ok fail_safe, 0)
  | responses, n + 1 =>
    let r := GPT_request (responses 0)
    if r = "TOKEN LIMIT EXCEEDED" ∨ r = "ChatGPT ERROR" then
      let rest := safeLoop func_validate func_clean_up P fail_safe
        (fun j => responses (j + 1)) n
      (rest.1, rest.2 + 1)
    else
      match func_validate r P with
      | .error e => (Except.error e, 1)
      | .ok false =>
        let rest := safeLoop func_validate func_clean_up P fail_safe
          (fun j => responses (j + 1)) n
        (rest.1, rest.2 + 1)
      | .ok true =>
        match func_clean_up r P with
        | .error e => (Except.error e, 1)
        | .ok v => (Except.ok v, 1)

/-- The JSON-instruction prompt built by `ChatGPT_safe_generate_response`
(source lines 122-125). -/
def chatWrappedPrompt (prompt special_instruction example_output : String) : String :=
  "\"\"\"\n" ++ prompt ++ "\n\"\"\"\n" ++
  "Output the response to the prompt above in json. " ++ special_instruction ++ "\n" ++
  "Example output json:\n" ++ "\x7b\"output\": \"" ++ example_output ++ "\"\x7d"

/-- The JSON-instruction prompt built by `GPT4_safe_generate_response`
(source lines 82-85). -/
def gpt4WrappedPrompt (prompt special_instruction example_output : String) : String :=
  "GPT-3 Prompt:\n\"\"\"\n" ++ prompt ++ "\n\"\"\"\n" ++
  "Output the response to the prompt above in json. " ++ special_instruction ++ "\n" ++
  "Example output json:\n" ++ "\x7b\"output\": \"" ++ example_output ++ "\"\x7d"

/-- Model of `ChatGPT_safe_generate_response` (source lines 113-154).  Note
that on exhaustion the source returns the literal `False`, not
`fail_safe_response` (which the function accepts but never uses). -/
def ChatGPT_safe_generate_response (jsonOutput : String → Option String)
    (responses : Nat → Except Unit String)
    (prompt example_output special_instruction : String)
    (repeatN : Int) (fail_safe_response : PyVal)
    (func_validate : String → String → Except Unit Bool)
    (func_clean_up : String → String → Except Unit PyVal) :
    Except Unit PyVal × Nat :=
  let _ := fail_safe_response
  let P := chatWrappedPrompt prompt special_instruction example_output
  retryLoop
    (fun inner => jsonAttempt ChatGPT_request jsonOutput inner func_validate func_clean_up P)
    (PyVal.bool false) responses repeatN.toNat

/-- Model of `GPT4_safe_generate_response` (source lines 74-110): same loop as
`ChatGPT_safe_generate_response` with `GPT4_request` and its own prompt
wrapper; on exhaustion it also returns the literal `False`. -/
def GPT4_safe_generate_response (jsonOutput : String → Option String)
    (responses : Nat → Except Unit String)
    (prompt example_output special_instruction : String)
    (repeatN : Int) (fail_safe_response : PyVal)
    (func_validate : String → String → Except Unit Bool)
    (func_clean_up : String → String → Except Unit PyVal) :
    Except Unit PyVal × Nat :=
  let _ := fail_safe_response
  let P := gpt4WrappedPrompt prompt special_instruction example_output
  retryLoop
    (fun inner => jsonAttempt GPT4_request jsonOutput inner func_validate func_clean_up P)
    (PyVal.bool false) responses repeatN.toNat

/-- Model of `ChatGPT_safe_generate_response_OLD` (source lines 157-180):
validate the stripped raw response, return `fail_safe_response` on
exhaustion. -/
def ChatGPT_safe_generate_response_OLD (responses : Nat → Except Unit String)
    (prompt : String) (repeatN : Int) (fail_safe_response : PyVal)
    (func_validate : String → String → Except Unit Bool)
    (func_clean_up : String → String → Except Unit PyVal) :
    Except Unit PyVal × Nat :=
  retryLoop (fun inner => oldAttempt inner func_validate func_clean_up prompt)
    fail_safe_response responses repeatN.toNat

/-- Model of `safe_generate_response` (source lines 288-314): skip the two
in-band error sentinels, otherwise validate and clean up with no exception
handler, returning `fail_safe_response` on exhaustion. -/
def safe_generate_response (responses : Nat → Except Unit String)
    (prompt : String) (repeatN : Int) (fail_safe_response : PyVal)
    (func_validate : String → String → Except Unit Bool)
    (func_clean_up : String → String → Except Unit PyVal) :
    Except Unit PyVal × Nat :=
  safeLoop func_validate func_clean_up prompt fail_safe_response responses repeatN.toNat

/-- Test whether an outcome is a normal return (no propagated exception). -/
def exceptOk : Except Unit PyVal → Bool
  | .ok _ => true
  | .error _ => false

/-- JSON whitespace accepted between tokens by `json.loads`. -/
def isJsonWs (c : Char) : Bool :=
  c == ' ' || c == '\t' || c == '\n' || c == '\r'

/-- Drop leading JSON whitespace. -/
def skipJsonWs : List Char → List Char
  | [] => []
  | c :: cs => if isJsonWs c then skipJsonWs cs else c :: cs

/-- Scan a JSON string body (after its opening quote) up to its closing
quote; escape sequences are outside the modelled subset and yield `none`. -/
def scanJsonString : List Char → Option (String × List Char)
  | [] => none
  | c :: cs =>
    if c = '"' then some ("", cs)
    else if c = '\\' then none
    else
      match scanJsonString cs with
      | some (s, rest) => some (String.mk (c :: s.toList), rest)
      | none => none

/-- Parse the members of a JSON object whose keys and values are plain
strings, expecting the closing brace and then end of input. -/
def parseJsonMembers : Nat → List Char → List (String × String) →
    Option (List (String × String))
  | 0, _, _ => none
  | fuel + 1, l, acc =>
    match l with
    | '"' :: rest =>
      match scanJsonString rest with
      | none => none
      | some (key, rest1) =>
        match skipJsonWs rest1 with
        | ':' :: rest2 =>
          match skipJsonWs rest2 with
          | '"' :: rest3 =>
            match scanJsonString rest3 with
            | none => none
            | some (val, rest4) =>
              match skipJsonWs rest4 with
              | ',' :: rest5 => parseJsonMembers fuel (skipJsonWs rest5) (acc ++ [(key, val)])
              | '\x7d' :: rest5 =>
                if skipJsonWs rest5 = [] then some (acc ++ [(key, val)]) else none
              | _ => none
          | _ => none
        | _ => none
    | _ => none

/-- Parse a whole flat JSON object with string keys and string values. -/
def jsonParseObj (l : List Char) : Option (List (String × String)) :=
  match skipJsonWs l with
  | '\x7b' :: rest =>
    match skipJsonWs rest with
    | '\x7d' :: tail => if skipJsonWs tail = [] then some [] else none
    | rest2 => parseJsonMembers (rest2.length + 1) rest2 []
  | _ => none

/-- Modelled from the spec and the Python stdlib call
`json.loads(s)["output"]` used at source lines 97 and 137: on the
flat-object/string-value subset of JSON exercised by this code it returns the
`"output"` value (duplicate keys: last one wins, as in Python); any other
input — including the empty string — yields `none`, standing for the raised
`JSONDecodeError`/`KeyError` that the loop's `except` then catches. -/
def jsonLoadsOutput (s : String) : Option String :=
  match jsonParseObj s.toList with
  | none => none
  | some ms => List.lookup "output" ms.reverse

/-- Failure of one `safe_generate_response` attempt without a raise: the
response is one of the two sentinels, or the validator returns `False`. -/
def safeAttemptFails (func_validate : String → String → Except Unit Bool)
    (P : String) (inner : Except Unit String) : Prop :=
  GPT_request inner = "TOKEN LIMIT EXCEEDED" ∨
  GPT_request inner = "ChatGPT ERROR" ∨
  func_validate (GPT_request inner) P = .ok false

example : jsonLoadsOutput "" = none := rfl
example : jsonLoadsOutput "\x7b\"output\": \"ok\"\x7d" = some "ok" := rfl
example : sliceToLastBrace "ChatGPT ERROR" = "" := rfl
example : pyStrip "  ok \n" = "ok" := rfl

/-! ## Helper lemmas about the two loop shapes -/

/-- When every attempt within the budget fails, `retryLoop` spends the whole
budget and returns the exhaustion value. -/
theorem retryLoop_all_fail (attempt : Except Unit String → Option PyVal)
    (exhaust : PyVal) :
    ∀ (n : Nat) (responses : Nat → Except Unit String),
      (∀ i < n, attempt (responses i) = none) →
      retryLoop attempt exhaust responses n = (Except.ok exhaust, n) := by
  intro n
  induction n with
  | zero => intro responses _; rfl
  | succ m ih =>
    intro responses h
    have h0 : attempt (responses 0) = none := h 0 (Nat.succ_pos m)
    have hrest : ∀ i < m, attempt ((fun j => responses (j + 1)) i) = none := by
      intro i hi
      exact h (i + 1) (Nat.succ_lt_succ hi)
    simp [retryLoop, h0, ih _ hrest]

/-- A `retryLoop` requester never propagates an exception. -/
theorem retryLoop_no_raise (attempt : Except Unit String → Option PyVal)
    (exhaust : PyVal) :
    ∀ (n : Nat) (responses : Nat → Except Unit String),
      exceptOk (retryLoop attempt exhaust responses n).1 = true := by
  intro n
  induction n with
  | zero => intro responses; rfl
  | succ m ih =>
    intro responses
    cases hat : attempt (responses 0) with
    | some v => simp [retryLoop, hat, exceptOk]
    | none => simp [retryLoop, hat, ih]

/-- When a successful attempt happens, the first one stops `retryLoop` after
exactly one more transport call. -/
theorem retryLoop_first_success (attempt : Except Unit String → Option PyVal)
    (exhaust : PyVal) (n : Nat) (responses : Nat → Except Unit String)
    (v : PyVal) (h : attempt (responses 0) = some v) :
    retryLoop attempt exhaust responses (n + 1) = (Except.ok v, 1) := by
  simp [retryLoop, h]

/-- A failing first attempt advances `retryLoop` to the next attempt, adding
one transport call. -/
theorem retryLoop_step_fail (attempt : Except Unit String → Option PyVal)
    (exhaust : PyVal) (n : Nat) (responses : Nat → Except Unit String)
    (h : attempt (responses 0) = none) :
    retryLoop attempt exhaust responses (n + 1) =
      ((retryLoop attempt exhaust (fun j => responses (j + 1)) n).1,
       (retryLoop attempt exhaust (fun j => responses (j + 1)) n).2 + 1) := by
  simp [retryLoop, h]

/-- When every attempt within the budget fails without raising, `safeLoop`
spends the whole budget and returns the fail-safe value. -/
theorem safeLoop_all_fail (v : String → String → Except Unit Bool)
    (c : String → String → Except Unit PyVal) (P : String) (fs : PyVal) :
    ∀ (n : Nat) (responses : Nat → Except Unit String),
      (∀ i < n, safeAttemptFails v P (responses i)) →
      safeLoop v c P fs responses n = (Except.ok fs, n) := by
  intro n
  induction n with
  | zero => intro responses _; rfl
  | succ m ih =>
    intro responses h
    have hrest : ∀ i < m, safeAttemptFails v P ((fun j => responses (j + 1)) i) := by
      intro i hi
      exact h (i + 1) (Nat.succ_lt_succ hi)
    have h0 := h 0 (Nat.succ_pos m)
    by_cases hs : GPT_request (responses 0) = "TOKEN LIMIT EXCEEDED" ∨
        GPT_request (responses 0) = "ChatGPT ERROR"
    · simp [safeLoop, hs, ih _ hrest]
    · have hv : v (GPT_request (responses 0)) P = .ok false := by
        rcases h0 with h0 | h0 | h0
        · exact absurd (Or.inl h0) hs
        · exact absurd (Or.inr h0) hs
        · exact h0
      simp [safeLoop, hs, hv, ih _ hrest]

/-- When the validator and the cleanup never raise, `safeLoop` never
propagates an exception. -/
theorem safeLoop_no_raise (v : String → String → Except Unit Bool)
    (c : String → String → Except Unit PyVal) (P : String) (fs : PyVal)
    (hv : ∀ s, ∃ b, v s P = .ok b) (hc : ∀ s, ∃ val, c s P = .ok val) :
    ∀ (n : Nat) (responses : Nat → Except Unit String),
      exceptOk (safeLoop v c P fs responses n).1 = true := by
  intro n
  induction n with
  | zero => intro responses; rfl
  | succ m ih =>
    intro responses
    by_cases hs : GPT_request (responses 0) = "TOKEN LIMIT EXCEEDED" ∨
        GPT_request (responses 0) = "ChatGPT ERROR"
    · simp [safeLoop, hs, ih]
    · obtain ⟨b, hb⟩ := hv (GPT_request (responses 0))
      cases b with
      | false => simp [safeLoop, hs, hb, ih]
      | true =>
        obtain ⟨val, hval⟩ := hc (GPT_request (responses 0))
        simp [safeLoop, hs, hb, hval, exceptOk]

/-! ## Claim theorems -/

/-- C1 (counterexample): with `repeat = 3`, a transport whose decoded output
the validator always rejects, and `fail_safe_response = "error"`, every
attempt ends without a validated result, yet `ChatGPT_safe_generate_response`
returns the Python literal `False` — not the caller-supplied
`fail_safe_response`. -/
theorem c1_exhaustion_counterexample :
    ChatGPT_safe_generate_response jsonLoadsOutput
      (fun _ => Except.ok "\x7b\"output\": \"x\"\x7d") "p" "eg" "si"
      (3 : Int) (PyVal.str "error")
      (fun _ _ => Except.ok false) (fun cand _ => Except.ok (PyVal.str cand)) =
      (Except.ok (PyVal.bool false), 3) ∧
    PyVal.bool false ≠ PyVal.str "error" :=
  ⟨rfl, by decide⟩

/-- C1 (amended): if all `repeat` attempts end without a validated result,
`safe_generate_response` and `ChatGPT_safe_generate_response_OLD` return the
caller-supplied `fail_safe_response`, while `ChatGPT_safe_generate_response`
and `GPT4_safe_generate_response` return the Python literal `False` (their
`fail_safe_response` parameter is unused). -/
theorem c1_exhaustion_amended
    (jsonOutput : String → Option String) (responses : Nat → Except Unit String)
    (p eo si : String) (n : Nat) (fs : PyVal)
    (v : String → String → Except Unit Bool)
    (c : String → String → Except Unit PyVal) :
    ((∀ i < n, jsonAttempt ChatGPT_request jsonOutput (responses i) v c
        (chatWrappedPrompt p si eo) = none) →
      ChatGPT_safe_generate_response jsonOutput responses p eo si (n : Int) fs v c =
        (Except.ok (PyVal.bool false), n)) ∧
    ((∀ i < n, jsonAttempt GPT4_request jsonOutput (responses i) v c
        (gpt4WrappedPrompt p si eo) = none) →
      GPT4_safe_generate_response jsonOutput responses p eo si (n : Int) fs v c =
        (Except.ok (PyVal.bool false), n)) ∧
    ((∀ i < n, oldAttempt (responses i) v c p = none) →
      ChatGPT_safe_generate_response_OLD responses p (n : Int) fs v c =
        (Except.ok fs, n)) ∧
    ((∀ i < n, safeAttemptFails v p (responses i)) →
      safe_generate_response responses p (n : Int) fs v c = (Except.ok fs, n)) := by
  refine ⟨?_, ?_, ?_, ?_⟩
  · intro h
    exact retryLoop_all_fail _ _ n responses h
  · intro h
    exact retryLoop_all_fail _ _ n responses h
  · intro h
    exact retryLoop_all_fail _ _ n responses h
  · intro h
    exact safeLoop_all_fail v c p fs n responses h

/-- C1 (witness): concrete exhausted runs — the two fail-safe-returning
variants yield `"error"`, the JSON variant yields `False`. -/
theorem c1_exhaustion_witness :
    ChatGPT_safe_generate_response jsonLoadsOutput
      (fun _ => Except.ok "") "p" "eg" "si" ((2 : Nat) : Int) (PyVal.str "error")
      (fun _ _ => Except.ok true) (fun cand _ => Except.ok (PyVal.str cand)) =
      (Except.ok (PyVal.bool false), 2) ∧
    safe_generate_response (fun _ => Except.error ()) "p" ((2 : Nat) : Int)
      (PyVal.str "error")
      (fun _ _ => Except.ok true) (fun cand _ => Except.ok (PyVal.str cand)) =
      (Except.ok (PyVal.str "error"), 2) :=
  ⟨(c1_exhaustion_amended jsonLoadsOutput (fun _ => Except.ok "") "p" "eg" "si" 2
      (PyVal.str "error") (fun _ _ => Except.ok true)
      (fun cand _ => Except.ok (PyVal.str cand))).1 (fun _ _ => rfl),
   (c1_exhaustion_amended jsonLoadsOutput (fun _ => Except.error ()) "p" "eg" "si" 2
      (PyVal.str "error") (fun _ _ => Except.ok true)
      (fun cand _ => Except.ok (PyVal.str cand))).2.2.2 (fun _ _ => Or.inl rfl)⟩

/-- C3 (counterexample): with `repeat = 3` and a transport that raises on
every attempt, `ChatGPT_safe_generate_response` does make exactly 3 transport
calls, but then returns the literal `False`, not the fail-safe value
`"error"`. -/
theorem c3_bounded_attempts_counterexample :
    ChatGPT_safe_generate_response jsonLoadsOutput
      (fun _ => Except.error ()) "p" "eg" "si"
      (3 : Int) (PyVal.str "error")
      (fun _ _ => Except.ok true) (fun cand _ => Except.ok (PyVal.str cand)) =
      (Except.ok (PyVal.bool false), 3) ∧
    PyVal.bool false ≠ PyVal.str "error" :=
  ⟨rfl, by decide⟩

/-- C3 (amended): for `repeat = N > 0` and a transport that raises on every
attempt, each retry-requester variant performs exactly `N` transport calls
and then returns its exhaustion value: `fail_safe_response` for
`safe_generate_response` and (provided the validator rejects the in-band
`"ChatGPT ERROR"` sentinel, which that variant does not filter)
`ChatGPT_safe_generate_response_OLD`, and the literal `False` for
`ChatGPT_safe_generate_response` and `GPT4_safe_generate_response`. -/
theorem c3_bounded_attempts_amended
    (jsonOutput : String → Option String) (p eo si : String) (n : Nat)
    (hn : 0 < n) (fs : PyVal)
    (v : String → String → Except Unit Bool)
    (c : String → String → Except Unit PyVal) :
    (jsonOutput "" = none →
      ChatGPT_safe_generate_response jsonOutput (fun _ => Except.error ()) p eo si
        (n : Int) fs v c = (Except.ok (PyVal.bool false), n)) ∧
    (jsonOutput "" = none →
      GPT4_safe_generate_response jsonOutput (fun _ => Except.error ()) p eo si
        (n : Int) fs v c = (Except.ok (PyVal.bool false), n)) ∧
    (v "ChatGPT ERROR" p = Except.ok false →
      ChatGPT_safe_generate_response_OLD (fun _ => Except.error ()) p
        (n : Int) fs v c = (Except.ok fs, n)) ∧
    safe_generate_response (fun _ => Except.error ()) p (n : Int) fs v c =
      (Except.ok fs, n) := by
  have := hn
  refine ⟨?_, ?_, ?_, ?_⟩
  · intro hj
    refine retryLoop_all_fail _ _ n _ (fun i _ => ?_)
    have hslice : sliceToLastBrace (pyStrip (ChatGPT_request (Except.error ()))) = "" := rfl
    simp [jsonAttempt, hslice, hj]
  · intro hj
    refine retryLoop_all_fail _ _ n _ (fun i _ => ?_)
    have hslice : sliceToLastBrace (pyStrip (GPT4_request (Except.error ()))) = "" := rfl
    simp [jsonAttempt, hslice, hj]
  · intro hold
    refine retryLoop_all_fail _ _ n _ (fun i _ => ?_)
    have hstrip : pyStrip (ChatGPT_request (Except.error ())) = "ChatGPT ERROR" := rfl
    simp [oldAttempt, hstrip, hold]
  · exact safeLoop_all_fail v c p fs n _ (fun i _ => Or.inl rfl)

/-- C3 (witness): the amended statement at `N = 3` — the two JSON variants
and `safe_generate_response` under an always-accepting validator (no proviso
needed there), the `_OLD` variant under a validator rejecting the sentinel. -/
theorem c3_bounded_attempts_witness :
    ChatGPT_safe_generate_response jsonLoadsOutput (fun _ => Except.error ())
      "p" "eg" "si" ((3 : Nat) : Int) (PyVal.str "error")
      (fun _ _ => Except.ok true) (fun cand _ => Except.ok (PyVal.str cand)) =
      (Except.ok (PyVal.bool false), 3) ∧
    GPT4_safe_generate_response jsonLoadsOutput (fun _ => Except.error ())
      "p" "eg" "si" ((3 : Nat) : Int) (PyVal.str "error")
      (fun _ _ => Except.ok true) (fun cand _ => Except.ok (PyVal.str cand)) =
      (Except.ok (PyVal.bool false), 3) ∧
    ChatGPT_safe_generate_response_OLD (fun _ => Except.error ()) "p"
      ((3 : Nat) : Int) (PyVal.str "error")
      (fun s _ => Except.ok (s == "")) (fun cand _ => Except.ok (PyVal.str cand)) =
      (Except.ok (PyVal.str "error"), 3) ∧
    safe_generate_response (fun _ => Except.error ()) "p" ((3 : Nat) : Int)
      (PyVal.str "error")
      (fun _ _ => Except.ok true) (fun cand _ => Except.ok (PyVal.str cand)) =
      (Except.ok (PyVal.str "error"), 3) :=
  have h1 := c3_bounded_attempts_amended jsonLoadsOutput "p" "eg" "si" 3 (by decide)
    (PyVal.str "error") (fun _ _ => Except.ok true)
    (fun cand _ => Except.ok (PyVal.str cand))
  have h2 := c3_bounded_attempts_amended jsonLoadsOutput "p" "eg" "si" 3 (by decide)
    (PyVal.str "error") (fun s _ => Except.ok (s == ""))
    (fun cand _ => Except.ok (PyVal.str cand))
  ⟨h1.1 rfl, h1.2.1 rfl, h2.2.2.1 rfl, h1.2.2.2⟩

/-- C10: for every `repeat ≤ 0`, each retry-requester variant performs zero
transport calls and immediately returns its exhaustion value
(`fail_safe_response` for `safe_generate_response` and
`ChatGPT_safe_generate_response_OLD`, the literal `False` for
`ChatGPT_safe_generate_response` and `GPT4_safe_generate_response`). -/
theorem c10_nonpositive_repeat (repeatN : Int) (h : repeatN ≤ 0)
    (jsonOutput : String → Option String) (responses : Nat → Except Unit String)
    (p eo si : String) (fs : PyVal)
    (v : String → String → Except Unit Bool)
    (c : String → String → Except Unit PyVal) :
    safe_generate_response responses p repeatN fs v c = (Except.ok fs, 0) ∧
    ChatGPT_safe_generate_response_OLD responses p repeatN fs v c =
      (Except.ok fs, 0) ∧
    ChatGPT_safe_generate_response jsonOutput responses p eo si repeatN fs v c =
      (Except.ok (PyVal.bool false), 0) ∧
    GPT4_safe_generate_response jsonOutput responses p eo si repeatN fs v c =
      (Except.ok (PyVal.bool false), 0) := by
  have h0 : repeatN.toNat = 0 := Int.toNat_of_nonpos h
  refine ⟨?_, ?_, ?_, ?_⟩ <;>
    simp [safe_generate_response, ChatGPT_safe_generate_response_OLD,
      ChatGPT_safe_generate_response, GPT4_safe_generate_response, h0,
      safeLoop, retryLoop]

/-- C10 (witness): concrete runs with `repeat = -1`. -/
theorem c10_nonpositive_repeat_witness :
    safe_generate_response (fun _ => Except.ok "x") "p" (-1 : Int)
      (PyVal.str "error")
      (fun _ _ => Except.ok true) (fun cand _ => Except.ok (PyVal.str cand)) =
      (Except.ok (PyVal.str "error"), 0) ∧
    ChatGPT_safe_generate_response_OLD (fun _ => Except.ok "x") "p" (-1 : Int)
      (PyVal.str "error")
      (fun _ _ => Except.ok true) (fun cand _ => Except.ok (PyVal.str cand)) =
      (Except.ok (PyVal.str "error"), 0) ∧
    ChatGPT_safe_generate_response jsonLoadsOutput (fun _ => Except.ok "x")
      "p" "eg" "si" (-1 : Int) (PyVal.str "error")
      (fun _ _ => Except.ok true) (fun cand _ => Except.ok (PyVal.str cand)) =
      (Except.ok (PyVal.bool false), 0) ∧
    GPT4_safe_generate_response jsonLoadsOutput (fun _ => Except.ok "x")
      "p" "eg" "si" (-1 : Int) (PyVal.str "error")
      (fun _ _ => Except.ok true) (fun cand _ => Except.ok (PyVal.str cand)) =
      (Except.ok (PyVal.bool false), 0) :=
  c10_nonpositive_repeat (-1) (by decide) jsonLoadsOutput (fun _ => Except.ok "x")
    "p" "eg" "si" (PyVal.str "error")
    (fun _ _ => Except.ok true) (fun cand _ => Except.ok (PyVal.str cand))

/-- C2 (counterexample): `safe_generate_response` has no exception handler in
its loop — a validator that raises propagates out of the requester after the
first attempt instead of being absorbed as a failed attempt. -/
theorem c2_exception_leak_counterexample :
    safe_generate_response (fun _ => Except.ok "hello") "p" (3 : Int)
      (PyVal.str "error") (fun _ _ => Except.error ())
      (fun cand _ => Except.ok (PyVal.str cand)) = (Except.error (), 1) := rfl

/-- C2 (amended): `ChatGPT_safe_generate_response`,
`GPT4_safe_generate_response` and `ChatGPT_safe_generate_response_OLD` run
each attempt under `try`/`except` and never propagate an exception;
`safe_generate_response` absorbs transport failures (as in-band sentinel
strings produced inside `GPT_request`) but, having no handler of its own,
only returns normally when the validator and cleanup never raise. -/
theorem c2_no_exception_leakage_amended
    (jsonOutput : String → Option String) (responses : Nat → Except Unit String)
    (p eo si : String) (repeatN : Int) (fs : PyVal)
    (v : String → String → Except Unit Bool)
    (c : String → String → Except Unit PyVal) :
    exceptOk (ChatGPT_safe_generate_response jsonOutput responses p eo si
      repeatN fs v c).1 = true ∧
    exceptOk (GPT4_safe_generate_response jsonOutput responses p eo si
      repeatN fs v c).1 = true ∧
    exceptOk (ChatGPT_safe_generate_response_OLD responses p repeatN fs v c).1 = true ∧
    ((∀ s, ∃ b, v s p = Except.ok b) → (∀ s, ∃ val, c s p = Except.ok val) →
      exceptOk (safe_generate_response responses p repeatN fs v c).1 = true) := by
  refine ⟨retryLoop_no_raise _ _ _ _, retryLoop_no_raise _ _ _ _,
    retryLoop_no_raise _ _ _ _, ?_⟩
  intro hv hc
  exact safeLoop_no_raise v c p fs hv hc _ _

/-- C2 (witness): concrete runs of the amended statement, with a raising
transport on attempt 1 and a never-raising validator/cleanup pair. -/
theorem c2_no_exception_leakage_witness :
    exceptOk (ChatGPT_safe_generate_response jsonLoadsOutput
      (fun i => if i = 0 then Except.error () else Except.ok "x") "p" "eg" "si"
      (3 : Int) (PyVal.str "error")
      (fun _ _ => Except.ok true) (fun cand _ => Except.ok (PyVal.str cand))).1 = true ∧
    exceptOk (GPT4_safe_generate_response jsonLoadsOutput
      (fun i => if i = 0 then Except.error () else Except.ok "x") "p" "eg" "si"
      (3 : Int) (PyVal.str "error")
      (fun _ _ => Except.ok true) (fun cand _ => Except.ok (PyVal.str cand))).1 = true ∧
    exceptOk (ChatGPT_safe_generate_response_OLD
      (fun i => if i = 0 then Except.error () else Except.ok "x") "p"
      (3 : Int) (PyVal.str "error")
      (fun _ _ => Except.ok true) (fun cand _ => Except.ok (PyVal.str cand))).1 = true ∧
    exceptOk (safe_generate_response
      (fun i => if i = 0 then Except.error () else Except.ok "x") "p"
      (3 : Int) (PyVal.str "error")
      (fun _ _ => Except.ok true) (fun cand _ => Except.ok (PyVal.str cand))).1 = true := by
  have h := c2_no_exception_leakage_amended jsonLoadsOutput
    (fun i => if i = 0 then Except.error () else Except.ok "x") "p" "eg" "si"
    (3 : Int) (PyVal.str "error")
    (fun _ _ => Except.ok true) (fun cand _ => Except.ok (PyVal.str cand))
  exact ⟨h.1, h.2.1, h.2.2.1,
    h.2.2.2 (fun s => ⟨true, rfl⟩) (fun s => ⟨PyVal.str s, rfl⟩)⟩

/-- C4: for every retry-requester variant, if the first attempt's candidate
passes the validator (and the cleanup returns normally), the requester
returns the cleanup result after exactly one transport call, whatever budget
remains. -/
theorem c4_short_circuit
    (jsonOutput : String → Option String) (responses : Nat → Except Unit String)
    (p eo si : String) (n : Nat) (fs : PyVal)
    (v : String → String → Except Unit Bool)
    (c : String → String → Except Unit PyVal) :
    (∀ cand val,
      jsonOutput (sliceToLastBrace (pyStrip (ChatGPT_request (responses 0)))) = some cand →
      v cand (chatWrappedPrompt p si eo) = Except.ok true →
      c cand (chatWrappedPrompt p si eo) = Except.ok val →
      ChatGPT_safe_generate_response jsonOutput responses p eo si
        ((n + 1 : Nat) : Int) fs v c = (Except.ok val, 1)) ∧
    (∀ cand val,
      jsonOutput (sliceToLastBrace (pyStrip (GPT4_request (responses 0)))) = some cand →
      v cand (gpt4WrappedPrompt p si eo) = Except.ok true →
      c cand (gpt4WrappedPrompt p si eo) = Except.ok val →
      GPT4_safe_generate_response jsonOutput responses p eo si
        ((n + 1 : Nat) : Int) fs v c = (Except.ok val, 1)) ∧
    (∀ val,
      v (pyStrip (ChatGPT_request (responses 0))) p = Except.ok true →
      c (pyStrip (ChatGPT_request (responses 0))) p = Except.ok val →
      ChatGPT_safe_generate_response_OLD responses p ((n + 1 : Nat) : Int) fs v c =
        (Except.ok val, 1)) ∧
    (∀ val,
      GPT_request (responses 0) ≠ "TOKEN LIMIT EXCEEDED" →
      GPT_request (responses 0) ≠ "ChatGPT ERROR" →
      v (GPT_request (responses 0)) p = Except.ok true →
      c (GPT_request (responses 0)) p = Except.ok val →
      safe_generate_response responses p ((n + 1 : Nat) : Int) fs v c =
        (Except.ok val, 1)) := by
  refine ⟨?_, ?_, ?_, ?_⟩
  · intro cand val h1 h2 h3
    have hatt : jsonAttempt ChatGPT_request jsonOutput (responses 0) v c
        (chatWrappedPrompt p si eo) = some val := by
      simp [jsonAttempt, h1, h2, h3]
    exact retryLoop_first_success
      (fun inner => jsonAttempt ChatGPT_request jsonOutput inner v c
        (chatWrappedPrompt p si eo))
      (PyVal.bool false) n responses val hatt
  · intro cand val h1 h2 h3
    have hatt : jsonAttempt GPT4_request jsonOutput (responses 0) v c
        (gpt4WrappedPrompt p si eo) = some val := by
      simp [jsonAttempt, h1, h2, h3]
    exact retryLoop_first_success
      (fun inner => jsonAttempt GPT4_request jsonOutput inner v c
        (gpt4WrappedPrompt p si eo))
      (PyVal.bool false) n responses val hatt
  · intro val h2 h3
    have hatt : oldAttempt (responses 0) v c p = some val := by
      simp [oldAttempt, h2, h3]
    exact retryLoop_first_success
      (fun inner => oldAttempt inner v c p) fs n responses val hatt
  · intro val h1 h2 h3 h4
    have hs : ¬(GPT_request (responses 0) = "TOKEN LIMIT EXCEEDED" ∨
        GPT_request (responses 0) = "ChatGPT ERROR") := fun hor => hor.elim h1 h2
    show safeLoop v c p fs responses (n + 1) = (Except.ok val, 1)
    simp [safeLoop, hs, h3, h4]

/-- C4 (witness): concrete first-attempt successes — the JSON variants after
decoding `\x7b"output": "ok"\x7d`, the raw variants on `"hello"` — each
returning after exactly one transport call with budget 3. -/
theorem c4_short_circuit_witness :
    ChatGPT_safe_generate_response jsonLoadsOutput
      (fun _ => Except.ok "\x7b\"output\": \"ok\"\x7d") "p" "eg" "si"
      ((2 + 1 : Nat) : Int) (PyVal.str "error")
      (fun cand _ => Except.ok (!(cand == ""))) (fun cand _ => Except.ok (PyVal.str cand)) =
      (Except.ok (PyVal.str "ok"), 1) ∧
    safe_generate_response (fun _ => Except.ok "hello") "p" ((2 + 1 : Nat) : Int)
      (PyVal.str "error")
      (fun cand _ => Except.ok (!(cand == ""))) (fun cand _ => Except.ok (PyVal.str cand)) =
      (Except.ok (PyVal.str "hello"), 1) :=
  ⟨(c4_short_circuit jsonLoadsOutput (fun _ => Except.ok "\x7b\"output\": \"ok\"\x7d")
      "p" "eg" "si" 2 (PyVal.str "error")
      (fun cand _ => Except.ok (!(cand == ""))) (fun cand _ => Except.ok (PyVal.str cand))).1
      "ok" (PyVal.str "ok") rfl rfl rfl,
   (c4_short_circuit jsonLoadsOutput (fun _ => Except.ok "hello")
      "p" "eg" "si" 2 (PyVal.str "error")
      (fun cand _ => Except.ok (!(cand == ""))) (fun cand _ => Except.ok (PyVal.str cand))).2.2.2
      (PyVal.str "hello") (by decide) (by decide) rfl rfl⟩

/-- C7 (counterexample): an empty transport response is not filtered by
`safe_generate_response` — it is passed straight to the validator, and an
accepting validator turns it into a successful attempt, so the loop does not
proceed to the next attempt. -/
theorem c7_blank_counterexample :
    safe_generate_response (fun _ => Except.ok "") "p" (5 : Int) (PyVal.str "error")
      (fun _ _ => Except.ok true) (fun cand _ => Except.ok (PyVal.str cand)) =
      (Except.ok (PyVal.str ""), 1) := rfl

/-- C7 (amended): only the JSON variants (`ChatGPT_safe_generate_response`,
`GPT4_safe_generate_response`) discard a blank response before validation —
its slice decodes to nothing, the attempt fails and the loop proceeds to the
next attempt.  `safe_generate_response` (which filters only the two error
sentinels) and `ChatGPT_safe_generate_response_OLD` pass the blank candidate
to the validator, which may accept it. -/
theorem c7_blank_amended
    (jsonOutput : String → Option String) (responses : Nat → Except Unit String)
    (p eo si b : String) (n : Nat) (fs : PyVal)
    (v : String → String → Except Unit Bool)
    (c : String → String → Except Unit PyVal)
    (hb : pyStrip b = "") (hj : jsonOutput "" = none) :
    jsonAttempt ChatGPT_request jsonOutput (Except.ok b) v c
      (chatWrappedPrompt p si eo) = none ∧
    jsonAttempt GPT4_request jsonOutput (Except.ok b) v c
      (gpt4WrappedPrompt p si eo) = none ∧
    (responses 0 = Except.ok b →
      ChatGPT_safe_generate_response jsonOutput responses p eo si
        ((n + 1 : Nat) : Int) fs v c =
        ((ChatGPT_safe_generate_response jsonOutput (fun j => responses (j + 1))
            p eo si (n : Int) fs v c).1,
         (ChatGPT_safe_generate_response jsonOutput (fun j => responses (j + 1))
            p eo si (n : Int) fs v c).2 + 1)) ∧
    (∀ val, responses 0 = Except.ok b →
      v "" p = Except.ok true → c "" p = Except.ok val →
      ChatGPT_safe_generate_response_OLD responses p ((n + 1 : Nat) : Int)
        fs v c = (Except.ok val, 1)) ∧
    (∀ val, responses 0 = Except.ok "" →
      v "" p = Except.ok true → c "" p = Except.ok val →
      safe_generate_response responses p ((n + 1 : Nat) : Int) fs v c =
        (Except.ok val, 1)) := by
  have hslice : sliceToLastBrace (pyStrip (ChatGPT_request (Except.ok b))) = "" := by
    show sliceToLastBrace (pyStrip b) = ""
    rw [hb]
    rfl
  have hslice4 : sliceToLastBrace (pyStrip (GPT4_request (Except.ok b))) = "" := by
    show sliceToLastBrace (pyStrip b) = ""
    rw [hb]
    rfl
  have hchat : jsonAttempt ChatGPT_request jsonOutput (Except.ok b) v c
      (chatWrappedPrompt p si eo) = none := by
    simp [jsonAttempt, hslice, hj]
  have hgpt4 : jsonAttempt GPT4_request jsonOutput (Except.ok b) v c
      (gpt4WrappedPrompt p si eo) = none := by
    simp [jsonAttempt, hslice4, hj]
  refine ⟨hchat, hgpt4, ?_, ?_, ?_⟩
  · intro hr
    have hatt : jsonAttempt ChatGPT_request jsonOutput (responses 0) v c
        (chatWrappedPrompt p si eo) = none := by
      rw [hr]; exact hchat
    exact retryLoop_step_fail
      (fun inner => jsonAttempt ChatGPT_request jsonOutput inner v c
        (chatWrappedPrompt p si eo))
      (PyVal.bool false) n responses hatt
  · intro val hr h2 h3
    have hatt : oldAttempt (responses 0) v c p = some val := by
      rw [hr]
      have hsb : pyStrip (ChatGPT_request (Except.ok b)) = "" := hb
      simp [oldAttempt, hsb, h2, h3]
    exact retryLoop_first_success (fun inner => oldAttempt inner v c p) fs n
      responses val hatt
  · intro val hr h2 h3
    have hne : GPT_request (responses 0) = "" := by rw [hr]; rfl
    have hs : ¬(GPT_request (responses 0) = "TOKEN LIMIT EXCEEDED" ∨
        GPT_request (responses 0) = "ChatGPT ERROR") := by
      rw [hne]; decide
    show safeLoop v c p fs responses (n + 1) = (Except.ok val, 1)
    simp [safeLoop, hs, hne, h2, h3]

/-- C7 (witness): a whitespace-only response makes the JSON attempt fail,
while `ChatGPT_safe_generate_response_OLD` strips it and hands the blank
candidate to a validator that accepts only blanks, and
`safe_generate_response` hands the empty response to an accepting validator —
both returning their cleanup after one call. -/
theorem c7_blank_witness :
    jsonAttempt ChatGPT_request jsonLoadsOutput (Except.ok " ")
      (fun _ _ => Except.ok true) (fun cand _ => Except.ok (PyVal.str cand))
      (chatWrappedPrompt "p" "si" "eg") = none ∧
    ChatGPT_safe_generate_response_OLD (fun _ => Except.ok " ") "p"
      ((1 + 1 : Nat) : Int) (PyVal.str "error")
      (fun s _ => Except.ok (s == "")) (fun cand _ => Except.ok (PyVal.str cand)) =
      (Except.ok (PyVal.str ""), 1) ∧
    safe_generate_response (fun _ => Except.ok "") "p" ((1 + 1 : Nat) : Int)
      (PyVal.str "error") (fun _ _ => Except.ok true)
      (fun cand _ => Except.ok (PyVal.str cand)) =
      (Except.ok (PyVal.str ""), 1) :=
  have h := c7_blank_amended jsonLoadsOutput (fun _ => Except.ok "") "p" "eg" "si"
    " " 1 (PyVal.str "error") (fun _ _ => Except.ok true)
    (fun cand _ => Except.ok (PyVal.str cand)) rfl rfl
  have hOld := c7_blank_amended jsonLoadsOutput (fun _ => Except.ok " ") "p" "eg"
    "si" " " 1 (PyVal.str "error") (fun s _ => Except.ok (s == ""))
    (fun cand _ => Except.ok (PyVal.str cand)) rfl rfl
  ⟨h.1, hOld.2.2.2.1 (PyVal.str "") rfl rfl rfl,
   h.2.2.2.2 (PyVal.str "") rfl rfl rfl⟩

/-- Helper: the fallback tier always makes exactly one secondary-model
call. -/
theorem gpt5Fallback_count (s : Except Unit (Option String)) :
    (gpt5Fallback s).2 = 1 := by
  cases s with
  | error e => rfl
  | ok cont => cases h : contentUsable cont <;> simp [gpt5Fallback, h]

/-- C5: within one attempt, `_gpt5_nano_complete` tries the primary model
first; it makes exactly one fallback call to the secondary model, with the
same completion prompt, precisely when the primary call raises or its content
is empty/blank; a usable primary answer is returned with no fallback call,
a usable secondary answer makes the whole attempt succeed while consuming a
single unit of the retry budget. -/
theorem c5_two_tier_fallback
    (prim sec : String → Except Unit (Option String)) (prompt : String)
    (primA secA : Nat → String → Except Unit (Option String))
    (p : String) (n : Nat) (fs : PyVal) (d : String) (val : PyVal)
    (v : String → String → Except Unit Bool)
    (c : String → String → Except Unit PyVal) :
    (gpt5_nano_complete prim sec prompt).2 =
      (match prim (completionPrompt prompt) with
       | .ok cont => if contentUsable cont then 0 else 1
       | .error _ => 1) ∧
    (∀ cont, prim (completionPrompt prompt) = Except.ok cont →
      contentUsable cont = true →
      gpt5_nano_complete prim sec prompt = (pyStrip (contentText cont), 0)) ∧
    ((prim (completionPrompt prompt) = Except.error () ∨
      (∃ cont, prim (completionPrompt prompt) = Except.ok cont ∧
        contentUsable cont = false)) →
      sec (completionPrompt prompt) = Except.ok (some d) → pyStrip d ≠ "" →
      gpt5_nano_complete prim sec prompt = (pyStrip d, 1)) ∧
    (primA 0 (completionPrompt p) = Except.error () →
      secA 0 (completionPrompt p) = Except.ok (some d) →
      pyStrip d ≠ "" →
      pyStrip d ≠ "TOKEN LIMIT EXCEEDED" → pyStrip d ≠ "ChatGPT ERROR" →
      v (pyStrip d) p = Except.ok true → c (pyStrip d) p = Except.ok val →
      safe_generate_response
        (fun i => Except.ok (gpt5_nano_complete (primA i) (secA i) p).1)
        p ((n + 1 : Nat) : Int) fs v c = (Except.ok val, 1)) := by
  refine ⟨?_, ?_, ?_, ?_⟩
  · cases hp : prim (completionPrompt prompt) with
    | error e => simp [gpt5_nano_complete, hp, gpt5Fallback_count]
    | ok cont =>
      cases hu : contentUsable cont <;>
        simp [gpt5_nano_complete, hp, hu, gpt5Fallback_count]
  · intro cont hp hu
    simp [gpt5_nano_complete, hp, hu]
  · intro hfb hsec hd
    have hgf : gpt5Fallback (sec (completionPrompt prompt)) = (pyStrip d, 1) := by
      rw [hsec]
      simp [gpt5Fallback, contentUsable, contentText, hd]
    rcases hfb with hp | ⟨cont, hp, hu⟩
    · simp [gpt5_nano_complete, hp, hgf]
    · simp [gpt5_nano_complete, hp, hu, hgf]
  · intro hp hsec hd hs1 hs2 hv hc
    have hgf : gpt5Fallback (secA 0 (completionPrompt p)) = (pyStrip d, 1) := by
      rw [hsec]
      simp [gpt5Fallback, contentUsable, contentText, hd]
    have hresp : gpt5_nano_complete (primA 0) (secA 0) p = (pyStrip d, 1) := by
      simp [gpt5_nano_complete, hp, hgf]
    show safeLoop v c p fs
      (fun i => Except.ok (gpt5_nano_complete (primA i) (secA i) p).1) (n + 1) =
      (Except.ok val, 1)
    have hr0 : GPT_request
        (Except.ok (gpt5_nano_complete (primA 0) (secA 0) p).1) = pyStrip d := by
      simp [GPT_request, hresp]
    have hsent : ¬(pyStrip d = "TOKEN LIMIT EXCEEDED" ∨
        pyStrip d = "ChatGPT ERROR") := fun hor => hor.elim hs1 hs2
    simp [safeLoop, hr0, hsent, hv, hc]

/-- C5 (witness): a raising primary and a secondary answering `" done "` —
the single call returns `"done"` after exactly one fallback call, and the
attempt built on it succeeds spending one transport call of the retry
budget. -/
theorem c5_two_tier_fallback_witness :
    gpt5_nano_complete (fun _ => Except.error ())
      (fun _ => Except.ok (some " done ")) "p" = ("done", 1) ∧
    safe_generate_response
      (fun i => Except.ok (gpt5_nano_complete
        ((fun _ _ => Except.error ()) i)
        ((fun _ _ => Except.ok (some " done ")) i) "p").1)
      "p" ((0 + 1 : Nat) : Int) (PyVal.str "error")
      (fun cand _ => Except.ok (!(cand == "")))
      (fun cand _ => Except.ok (PyVal.str cand)) =
      (Except.ok (PyVal.str "done"), 1) :=
  have h := c5_two_tier_fallback (fun _ => Except.error ())
    (fun _ => Except.ok (some " done ")) "p"
    (fun _ _ => Except.error ()) (fun _ _ => Except.ok (some " done "))
    "p" 0 (PyVal.str "error") " done " (PyVal.str "done")
    (fun cand _ => Except.ok (!(cand == "")))
    (fun cand _ => Except.ok (PyVal.str cand))
  ⟨h.2.2.1 (Or.inl rfl) rfl (by decide),
   h.2.2.2 rfl rfl (by decide) (by decide) (by decide) rfl rfl⟩

/-- C6: with `repeat = 3`, a transport returning `\x7b"output": "ok"\x7d` on
attempt 2 only (empty string on attempts 1 and 3), a validator accepting any
non-empty string, and a cleanup wrapping the extracted `"output"` field,
`ChatGPT_safe_generate_response` returns `"ok"` after exactly 2 transport
calls. -/
theorem c6_scenario :
    ChatGPT_safe_generate_response jsonLoadsOutput
      (fun i => Except.ok (if i = 1 then "\x7b\"output\": \"ok\"\x7d" else ""))
      "p" "eg" "si" (3 : Int) (PyVal.str "error")
      (fun cand _ => Except.ok (!(cand == "")))
      (fun cand _ => Except.ok (PyVal.str cand)) =
      (Except.ok (PyVal.str "ok"), 2) := rfl

/-- Helper: an attempt of the JSON variants returns a value exactly when the
stripped response, sliced through its last closing brace, decodes to an
`"output"` candidate that the validator accepts and the cleanup transforms
without raising. -/
theorem jsonAttempt_some_iff (request : Except Unit String → String)
    (jsonOutput : String → Option String) (inner : Except Unit String)
    (v : String → String → Except Unit Bool)
    (c : String → String → Except Unit PyVal) (P : String) (val : PyVal) :
    jsonAttempt request jsonOutput inner v c P = some val ↔
      ∃ cand, jsonOutput (sliceToLastBrace (pyStrip (request inner))) = some cand ∧
        v cand P = Except.ok true ∧ c cand P = Except.ok val := by
  cases hj : jsonOutput (sliceToLastBrace (pyStrip (request inner))) with
  | none => simp [jsonAttempt, hj]
  | some cand0 =>
    cases hv : v cand0 P with
    | error e => simp [jsonAttempt, hj, hv]
    | ok bb =>
      cases bb with
      | false => simp [jsonAttempt, hj, hv]
      | true =>
        cases hc : c cand0 P with
        | error e => simp [jsonAttempt, hj, hv, hc]
        | ok val0 => simp [jsonAttempt, hj, hv, hc, eq_comm]

/-- C8: in `ChatGPT_safe_generate_response` and `GPT4_safe_generate_response`
an attempt succeeds exactly when the response, stripped and sliced from its
start through the last closing brace, decodes to JSON holding the `"output"`
key (and the candidate then passes the validator and the cleanup); whenever
that decode fails, the attempt is a failed attempt and the caught exception
advances the loop to the next attempt. -/
theorem c8_json_extraction_gate
    (jsonOutput : String → Option String) (inner : Except Unit String)
    (responses : Nat → Except Unit String)
    (p eo si P : String) (n : Nat) (fs : PyVal)
    (v : String → String → Except Unit Bool)
    (c : String → String → Except Unit PyVal) :
    (∀ val, jsonAttempt ChatGPT_request jsonOutput inner v c P = some val ↔
      ∃ cand, jsonOutput (sliceToLastBrace (pyStrip (ChatGPT_request inner))) =
          some cand ∧
        v cand P = Except.ok true ∧ c cand P = Except.ok val) ∧
    (∀ val, jsonAttempt GPT4_request jsonOutput inner v c P = some val ↔
      ∃ cand, jsonOutput (sliceToLastBrace (pyStrip (GPT4_request inner))) =
          some cand ∧
        v cand P = Except.ok true ∧ c cand P = Except.ok val) ∧
    (jsonOutput (sliceToLastBrace (pyStrip (ChatGPT_request inner))) = none →
      jsonAttempt ChatGPT_request jsonOutput inner v c P = none) ∧
    (jsonAttempt ChatGPT_request jsonOutput (responses 0) v c
        (chatWrappedPrompt p si eo) = none →
      ChatGPT_safe_generate_response jsonOutput responses p eo si
        ((n + 1 : Nat) : Int) fs v c =
        ((ChatGPT_safe_generate_response jsonOutput (fun j => responses (j + 1))
            p eo si (n : Int) fs v c).1,
         (ChatGPT_safe_generate_response jsonOutput (fun j => responses (j + 1))
            p eo si (n : Int) fs v c).2 + 1)) := by
  refine ⟨fun val => jsonAttempt_some_iff ChatGPT_request jsonOutput inner v c P val,
    fun val => jsonAttempt_some_iff GPT4_request jsonOutput inner v c P val,
    ?_, ?_⟩
  · intro hj
    simp [jsonAttempt, hj]
  · intro hatt
    exact retryLoop_step_fail
      (fun inner => jsonAttempt ChatGPT_request jsonOutput inner v c
        (chatWrappedPrompt p si eo))
      (PyVal.bool false) n responses hatt

/-- C8 (witness): a brace-less response decodes to nothing, its attempt fails,
and a one-attempt run ends exhausted after that single failed attempt; a
well-formed response yields a successful attempt through the decoded
candidate. -/
theorem c8_json_extraction_gate_witness :
    jsonAttempt ChatGPT_request jsonLoadsOutput (Except.ok "no json here")
      (fun _ _ => Except.ok true) (fun cand _ => Except.ok (PyVal.str cand))
      "P" = none ∧
    ChatGPT_safe_generate_response jsonLoadsOutput
      (fun _ => Except.ok "no json here") "p" "eg" "si" ((0 + 1 : Nat) : Int)
      (PyVal.str "error")
      (fun _ _ => Except.ok true) (fun cand _ => Except.ok (PyVal.str cand)) =
      (Except.ok (PyVal.bool false), 1) ∧
    jsonAttempt ChatGPT_request jsonLoadsOutput
      (Except.ok "\x7b\"output\": \"ok\"\x7d")
      (fun _ _ => Except.ok true) (fun cand _ => Except.ok (PyVal.str cand))
      "P" = some (PyVal.str "ok") :=
  have h := c8_json_extraction_gate jsonLoadsOutput (Except.ok "no json here")
    (fun _ => Except.ok "no json here") "p" "eg" "si" "P" 0 (PyVal.str "error")
    (fun _ _ => Except.ok true) (fun cand _ => Except.ok (PyVal.str cand))
  have h2 := c8_json_extraction_gate jsonLoadsOutput
    (Except.ok "\x7b\"output\": \"ok\"\x7d")
    (fun _ => Except.ok "no json here") "p" "eg" "si" "P" 0 (PyVal.str "error")
    (fun _ _ => Except.ok true) (fun cand _ => Except.ok (PyVal.str cand))
  ⟨h.2.2.1 rfl, h.2.2.2 (h.2.2.1 rfl),
   (h2.1 (PyVal.str "ok")).mpr ⟨"ok", rfl, rfl, rfl⟩⟩

/-- C9: transport failure is signalled in-band — `GPT_request` maps any raise
to `"TOKEN LIMIT EXCEEDED"`, `_gpt5_nano_complete` reports total failure as
`"ChatGPT ERROR"`, and `safe_generate_response` skips any response textually
equal to either sentinel before the validator runs, so a genuine model output
equal to a sentinel is likewise discarded and the loop moves on. -/
theorem c9_in_band_sentinels
    (responses : Nat → Except Unit String) (p prompt2 : String) (n : Nat)
    (fs : PyVal)
    (v : String → String → Except Unit Bool)
    (c : String → String → Except Unit PyVal) :
    GPT_request (Except.error ()) = "TOKEN LIMIT EXCEEDED" ∧
    (gpt5_nano_complete (fun _ => Except.error ()) (fun _ => Except.error ())
      prompt2).1 = "ChatGPT ERROR" ∧
    ((responses 0 = Except.ok "TOKEN LIMIT EXCEEDED" ∨
      responses 0 = Except.ok "ChatGPT ERROR") →
      safe_generate_response responses p ((n + 1 : Nat) : Int) fs v c =
        ((safe_generate_response (fun j => responses (j + 1)) p (n : Int)
            fs v c).1,
         (safe_generate_response (fun j => responses (j + 1)) p (n : Int)
            fs v c).2 + 1)) := by
  refine ⟨rfl, rfl, ?_⟩
  intro h
  have hs : GPT_request (responses 0) = "TOKEN LIMIT EXCEEDED" ∨
      GPT_request (responses 0) = "ChatGPT ERROR" := by
    rcases h with h | h
    · rw [h]; exact Or.inl rfl
    · rw [h]; exact Or.inr rfl
  show safeLoop v c p fs responses (n + 1) = _
  simp [safeLoop, hs, safe_generate_response]

/-- C9 (witness): a genuine model output equal to `"TOKEN LIMIT EXCEEDED"` is
discarded without consulting the (always-accepting) validator, and the
one-attempt run falls through to the fail-safe value. -/
theorem c9_in_band_sentinels_witness :
    GPT_request (Except.error ()) = "TOKEN LIMIT EXCEEDED" ∧
    (gpt5_nano_complete (fun _ => Except.error ()) (fun _ => Except.error ())
      "x").1 = "ChatGPT ERROR" ∧
    safe_generate_response (fun _ => Except.ok "TOKEN LIMIT EXCEEDED") "p"
      ((0 + 1 : Nat) : Int) (PyVal.str "error")
      (fun _ _ => Except.ok true) (fun cand _ => Except.ok (PyVal.str cand)) =
      (Except.ok (PyVal.str "error"), 1) :=
  have h := c9_in_band_sentinels (fun _ => Except.ok "TOKEN LIMIT EXCEEDED")
    "p" "x" 0 (PyVal.str "error")
    (fun _ _ => Except.ok true) (fun cand _ => Except.ok (PyVal.str cand))
  ⟨h.1, h.2.1, h.2.2 (Or.inl rfl)⟩
